import Mathlib

/-!
Verification of the doc-analyser job/use-case execution orchestrator.

This file gives a shallow embedding of the orchestration logic of the
repository (worker/tasks.py, worker/docker_runner.py,
worker/parallel_executor.py, common/redis_client.py, models/analysis.py)
and proves properties of it. Machine integers are modelled as Int where
Python arithmetic can go negative; Python dicts keyed by stringified
indices 0..n-1 are modelled as lists indexed by position; the Redis
record is modelled as an association list.
-/

namespace DocAnalyser

/-- Status string used for use cases and jobs: pending. -/
def stPending : String := "pending"

/-- Status string: running. -/
def stRunning : String := "running"

/-- Status string: completed. -/
def stCompleted : String := "completed"

/-- Status string: failed. -/
def stFailed : String := "failed"

/-- Job status string: queued. -/
def stQueued : String := "queued"

/-- Job status string: processing. -/
def stProcessing : String := "processing"

/-- Job status string from models/analysis.py: completed_with_errors. -/
def stCompletedWithErrors : String := "completed_with_errors"

/-- Job status string from models/analysis.py: cloning. -/
def stCloning : String := "cloning"

/-- Job status string from models/analysis.py: extracting. -/
def stExtracting : String := "extracting"

/-- Job status string from models/analysis.py: extracting_use_cases. -/
def stExtractingUseCases : String := "extracting_use_cases"

/-- Job status string from models/analysis.py: executing. -/
def stExecuting : String := "executing"

/-- Job status string from models/analysis.py: extraction_failed. -/
def stExtractionFailed : String := "extraction_failed"

/-- Job status string from models/analysis.py: timeout. -/
def stTimeout : String := "timeout"

/-- The members of the AnalysisStatus enum in models/analysis.py, in
declaration order. -/
def analysisStatusValues : List String :=
  [stPending, stProcessing, stCloning, stExtracting, stExtractingUseCases,
   stExecuting, stCompleted, stCompletedWithErrors, stFailed,
   stExtractionFailed, stTimeout]

/-- Number of entries of a status list that equal the given status, as in
the generator expressions sum(1 for uc in use_cases.values() if
uc.get("status") == s) in tasks.py. -/
def countStatus (s : String) : List String → Nat
  | [] => 0
  | x :: xs => (if x = s then 1 else 0) + countStatus s xs

/-- The persisted job record as read and written by worker/tasks.py: the
job status, the counters total_use_cases, completed, failed and pending
(Python ints, so Int), and the use_cases map. The map is keyed by the
stringified indices 0..n-1 in tasks.py; here it is a list whose i-th
entry is the status of use case i. Fields of the record not touched by
the counter logic (paths, params, timestamps) are omitted. -/
structure JobData where
  status : String
  total : Int
  completed : Int
  failed : Int
  pending : Int
  useCases : List String
deriving DecidableEq, Repr

/-- The fresh job record written by RedisClient.initialize_job and by the
default branch of RedisClient.update_job_field: status pending, all
counters 0, empty use_cases map. -/
def initJobData : JobData :=
  { status := stPending, total := 0, completed := 0, failed := 0,
    pending := 0, useCases := [] }

/-- Lines 107-117 of worker/tasks.py (analyze_repository): after
extraction parses n use cases, the use_cases map is populated with
entries of status pending for indices 0..n-1, total_use_cases and
pending are set to n, and the job status is set to queued. The completed
and failed counters are not touched. -/
def populateUseCases (n : Nat) (j : JobData) : JobData :=
  { j with useCases := List.replicate n stPending,
           total := (n : Int), pending := (n : Int), status := stQueued }

/-- Lines 171-176 of worker/tasks.py (execute_single_use_case): if the
index is present in the use_cases map, its status is set to running and
the record is persisted; the counters are not touched. -/
def markRunning (i : Nat) (j : JobData) : JobData :=
  if i < j.useCases.length then
    { j with useCases := j.useCases.set i stRunning }
  else j

/-- Lines 195-219 of worker/tasks.py (execute_single_use_case, success
path): if the index is present, its status becomes completed when the
execution result exit code is 0 and failed otherwise; the completed and
failed counters are recomputed from the map, pending is set to
total_use_cases - completed - failed, and the job status is set to
completed when the new pending is 0 (otherwise left unchanged). -/
def recordResult (i : Nat) (exitCode : Int) (j : JobData) : JobData :=
  if i < j.useCases.length then
    let m := j.useCases.set i (if exitCode = 0 then stCompleted else stFailed)
    let c : Int := (countStatus stCompleted m : Int)
    let f : Int := (countStatus stFailed m : Int)
    let p : Int := j.total - c - f
    { status := if p = 0 then stCompleted else j.status,
      total := j.total, completed := c, failed := f, pending := p,
      useCases := m }
  else j

/-- Lines 237-250 of worker/tasks.py (execute_single_use_case, exception
path): if the index is present, its status becomes failed, the failed
counter is incremented, pending is decremented but clamped at 0, and the
job status becomes completed when the new pending is 0 and processing
otherwise. -/
def recordException (i : Nat) (j : JobData) : JobData :=
  if i < j.useCases.length then
    let m := j.useCases.set i stFailed
    let p : Int := max 0 (j.pending - 1)
    { j with useCases := m, failed := j.failed + 1, pending := p,
             status := if p = 0 then stCompleted else stProcessing }
  else j

/-- Number of use cases of the job currently in the running state. The
persisted record keeps no separate running counter; this is the only
notion of a running count derivable from the record. -/
def runningCount (j : JobData) : Nat :=
  countStatus stRunning j.useCases

/-- Consistency of the persisted counters with the use_cases map: the
completed and failed counters count the map entries with that status,
pending is total minus both, and total is the size of the map. -/
def countersOK (j : JobData) : Prop :=
  j.completed = (countStatus stCompleted j.useCases : Int) ∧
  j.failed = (countStatus stFailed j.useCases : Int) ∧
  j.pending = j.total - j.completed - j.failed ∧
  j.total = (j.useCases.length : Int)

/-- Job records reachable by the updates of worker/tasks.py applied in a
legal order: the record starts as the fresh record, extraction populates
the map only while it is still empty, and a use case is marked running
or driven to a terminal state only while its map entry is not already
terminal (each index is processed at most once, i.e. no task
redelivery). -/
inductive ReachableJob : JobData → Prop
  | init : ReachableJob initJobData
  | populate (n : Nat) (j : JobData) :
      ReachableJob j → j.useCases = [] → ReachableJob (populateUseCases n j)
  | markRun (i : Nat) (j : JobData) :
      ReachableJob j →
      j.useCases[i]? ≠ some stCompleted → j.useCases[i]? ≠ some stFailed →
      ReachableJob (markRunning i j)
  | recRes (i : Nat) (code : Int) (j : JobData) :
      ReachableJob j →
      j.useCases[i]? ≠ some stCompleted → j.useCases[i]? ≠ some stFailed →
      ReachableJob (recordResult i code j)
  | recExc (i : Nat) (j : JobData) :
      ReachableJob j →
      j.useCases[i]? ≠ some stCompleted → j.useCases[i]? ≠ some stFailed →
      ReachableJob (recordException i j)

/-- State of the use_cases.json file in the output directory when
analyze_repository reads it (worker/tasks.py lines 74-89). -/
inductive FileContent
  | absent
  | invalidJson
  | valid (ucs : List String)
deriving DecidableEq, Repr

/-- Error message prefix raised at worker/tasks.py line 87. -/
def extractionFailedPrefix : String := "Use case extraction failed: "

/-- Error message produced when json.load raises on a present but corrupt
use_cases.json (worker/tasks.py line 79). -/
def invalidJsonError : String := "Expecting value"

/-- Lines 74-89 of worker/tasks.py: read the extracted use cases. A
present file with valid JSON yields its use_cases list; a present file
with invalid JSON raises a decode error; an absent file yields the empty
list unless extraction_error.log exists in the output directory, in
which case a RuntimeError with its content is raised. -/
def readUseCasesFile : FileContent → Option String → Except String (List String)
  | FileContent.valid ucs, _ => Except.ok ucs
  | FileContent.invalidJson, _ => Except.error invalidJsonError
  | FileContent.absent, some errLog => Except.error (extractionFailedPrefix ++ errLog)
  | FileContent.absent, none => Except.ok []

/-- Outcome of the post-clone part of analyze_repository: the persisted
job record, the list of use-case indices for which an
execute_single_use_case task was queued, and the status string of the
returned dict. -/
structure AnalyzeOutcome where
  job : JobData
  spawned : List Nat
  returnedStatus : String
deriving DecidableEq, Repr

/-- Lines 74-139 and 141-152 of worker/tasks.py (analyze_repository)
after extraction has exited: read use_cases.json; on a read error the
exception handlers persist status failed and no execution task is
queued; otherwise the map is populated (populateUseCases), one
execute_single_use_case task is queued per index, and the task returns a
dict with status queued. -/
def analyzeAfterExtraction (fc : FileContent) (errLog : Option String)
    (j : JobData) : AnalyzeOutcome :=
  match readUseCasesFile fc errLog with
  | Except.error _ =>
      { job := { j with status := stFailed }, spawned := [],
        returnedStatus := stFailed }
  | Except.ok ucs =>
      { job := populateUseCases ucs.length j,
        spawned := List.range ucs.length,
        returnedStatus := stQueued }

/-- Observation the polling loop of execute_use_cases_with_pool makes of
one active container in one iteration (worker/docker_runner.py lines
311-375): still running, exited with an exit code, or the per-container
block raised (for example container.reload failed). -/
inductive ContainerObs
  | running
  | exited (code : Int)
  | errored (msg : String)
deriving DecidableEq, Repr

/-- A per-use-case result dict accumulated by the pool executor. The
fields modelled are the use-case index, the status classification, the
exit code when one was read, and the captured log or error text;
wall-clock fields (execution_time) are not modelled. -/
structure UCResult where
  index : Nat
  status : String
  exitCode : Option Int
  log : String
deriving DecidableEq, Repr

/-- Lines 475-497 of worker/docker_runner.py (_collect_container_result,
non-raising path): read the exit code and logs of an exited container
and classify the use case completed exactly when the exit code is 0 and
failed otherwise. No result-JSON file is consulted. -/
def collectContainerResult (i : Nat) (code : Int) (logs : String) : UCResult :=
  { index := i,
    status := if code = 0 then stCompleted else stFailed,
    exitCode := some code, log := logs }

/-- Lines 248-262 of worker/parallel_executor.py
(wait_for_container_completion): on container exit the exit code is read
from the container attributes with default -1 and the container record
status is set to completed exactly when that code is 0, failed
otherwise. -/
def waitForCompletionStatus (exitCodeAttr : Option Int) : String :=
  if exitCodeAttr.getD (-1) = 0 then stCompleted else stFailed

/-- State of execute_use_cases_with_pool: the queue of not yet dispatched
use-case indices (use_case_queue), the active containers identified by
their use-case index (container_pool, in insertion order), the result
accumulator, and the completed and failed counters. -/
structure PoolState where
  queue : List Nat
  active : List Nat
  results : List UCResult
  completedCount : Nat
  failedCount : Nat
deriving DecidableEq, Repr

/-- The initial state of execute_use_cases_with_pool for a given list of
use-case indices (worker/docker_runner.py lines 235-241). -/
def initialPoolState (ucs : List Nat) : PoolState :=
  { queue := ucs, active := [], results := [], completedCount := 0,
    failedCount := 0 }

/-- One dispatch of the pool executor (the body shared by lines 258-282
and 382-405 of worker/docker_runner.py): pop the queue head, call
_start_use_case_container; when a container id is returned the container
joins the pool, otherwise only an error is logged and the state is
otherwise unchanged. The oracle start says whether the container for a
given index starts. -/
def dispatchOne (start : Nat → Bool) (s : PoolState) : PoolState :=
  match s.queue with
  | [] => s
  | i :: rest =>
      if start i then
        { s with queue := rest, active := s.active ++ [i] }
      else
        { s with queue := rest }

/-- k successive dispatches, as in the initial-batch for loop of
worker/docker_runner.py lines 258-282. -/
def startBatch (start : Nat → Bool) : Nat → PoolState → PoolState
  | 0, s => s
  | k + 1, s => startBatch start k (dispatchOne start s)

/-- Lines 254-282 of worker/docker_runner.py: the initial batch starts
min(pool_size, len(queue)) containers. -/
def initialBatch (start : Nat → Bool) (poolSize : Nat) (s : PoolState) : PoolState :=
  startBatch start (min poolSize s.queue.length) s

/-- Processing of one active container during a reap pass
(worker/docker_runner.py lines 311-375): a running container stays in
the pool; an exited container leaves the pool and contributes a result
classified by collectContainerResult, incrementing the matching counter;
a container whose status check raised leaves the pool with a failed
result. The accumulator state carries the containers kept so far. -/
def reapOne (obs : Nat → ContainerObs) (logs : Nat → String)
    (s : PoolState) (i : Nat) : PoolState :=
  match obs i with
  | ContainerObs.running => { s with active := s.active ++ [i] }
  | ContainerObs.exited code =>
      let r := collectContainerResult i code (logs i)
      if r.status = stCompleted then
        { s with results := s.results ++ [r],
                 completedCount := s.completedCount + 1 }
      else
        { s with results := s.results ++ [r],
                 failedCount := s.failedCount + 1 }
  | ContainerObs.errored msg =>
      { s with results := s.results ++ [{ index := i, status := stFailed,
                                          exitCode := none, log := msg }],
               failedCount := s.failedCount + 1 }

/-- One reap pass over the whole pool in insertion order
(worker/docker_runner.py lines 308-379): finished containers are removed
and their results accumulated, the rest stay. -/
def reap (obs : Nat → ContainerObs) (logs : Nat → String) (s : PoolState) : PoolState :=
  s.active.foldl (reapOne obs logs) { s with active := [] }

/-- The backfill while loop of worker/docker_runner.py lines 382-405,
written with explicit fuel: while the pool holds fewer than pool_size
containers and the queue is nonempty, dispatch the queue head. Each
iteration pops exactly one queue item, so fuel equal to the queue length
makes the fueled loop equal to the unbounded while loop. -/
def backfillGo (start : Nat → Bool) (poolSize : Nat) : Nat → PoolState → PoolState
  | 0, s => s
  | fuel + 1, s =>
      if s.active.length < poolSize ∧ s.queue ≠ [] then
        backfillGo start poolSize fuel (dispatchOne start s)
      else s

/-- The backfill loop run with sufficient fuel. -/
def backfill (start : Nat → Bool) (poolSize : Nat) (s : PoolState) : PoolState :=
  backfillGo start poolSize s.queue.length s

/-- One iteration of the polling loop of execute_use_cases_with_pool
(worker/docker_runner.py lines 288-410): reap finished containers, then
backfill free slots from the queue. -/
def pollStep (start : Nat → Bool) (poolSize : Nat) (obs : Nat → ContainerObs)
    (logs : Nat → String) (s : PoolState) : PoolState :=
  backfill start poolSize (reap obs logs s)

/-- The state of execute_use_cases_with_pool after the initial batch and
n polling iterations; obs gives the observation of every container at
every poll. After queue and pool are both empty further iterations leave
the state unchanged, matching loop exit. -/
def poolTrace (start : Nat → Bool) (poolSize : Nat)
    (obs : Nat → Nat → ContainerObs) (logs : Nat → String)
    (ucs : List Nat) : Nat → PoolState
  | 0 => initialBatch start poolSize (initialPoolState ucs)
  | n + 1 => pollStep start poolSize (obs n) logs
      (poolTrace start poolSize obs logs ucs n)

/-- A queue item created by ParallelDockerExecutor.add_use_cases_to_queue
(worker/parallel_executor.py lines 52-62): the discovery index and the
use-case payload (here its name); id, job_id, status and created_at are
omitted. -/
structure QItem where
  index : Nat
  payload : String
deriving DecidableEq, Repr

/-- The queue items built from a use-case list, in discovery order with
index i for the i-th use case. -/
def mkQueueItems (ucs : List String) : List QItem :=
  (List.enum ucs).map (fun p => { index := p.fst, payload := p.snd })

/-- Redis LPUSH of several values: each value in turn is pushed onto the
head of the list, so the final head is the last value pushed
(worker/parallel_executor.py line 65). The list is kept head first. -/
def lpushMany (vals : List QItem) (q : List QItem) : List QItem :=
  vals.reverse ++ q

/-- Lines 39-69 of worker/parallel_executor.py: build the queue items in
discovery order and LPUSH them all onto the (fresh, empty) job queue. -/
def addUseCasesToQueue (ucs : List String) : List QItem :=
  lpushMany (mkQueueItems ucs) []

/-- Redis RPOP as used by get_next_use_case (worker/parallel_executor.py
lines 71-87): remove and return the tail of the list, or none when the
queue is empty. -/
def rpop (q : List QItem) : Option QItem × List QItem :=
  (q.getLast?, q.dropLast)

/-- n successive get_next_use_case calls: the list of items returned (in
call order) and the remaining queue. A call returning none stops
producing items. -/
def rpopMany : Nat → List QItem → List QItem × List QItem
  | 0, q => ([], q)
  | n + 1, q =>
      match q.getLast? with
      | none => ([], q)
      | some x =>
          let r := rpopMany n q.dropLast
          (x :: r.fst, r.snd)

/-- A JSON-like value stored in a field of the Redis job record. -/
inductive JValue
  | jStr (s : String)
  | jInt (n : Int)
  | jMap (entries : List (String × String))
deriving DecidableEq, Repr

/-- Field name constants of the Redis job record. -/
def fStatus : String := "status"

/-- Field name: total_use_cases. -/
def fTotal : String := "total_use_cases"

/-- Field name: completed. -/
def fCompleted : String := "completed"

/-- Field name: failed. -/
def fFailed : String := "failed"

/-- Field name: pending. -/
def fPending : String := "pending"

/-- Field name: use_cases. -/
def fUseCases : String := "use_cases"

/-- Field name: created_at. -/
def fCreatedAt : String := "created_at"

/-- Field name: updated_at. -/
def fUpdatedAt : String := "updated_at"

/-- Python dict assignment on a record kept as an association list:
update the first entry with the key in place, or append the new entry at
the end. -/
def setField : List (String × JValue) → String → JValue → List (String × JValue)
  | [], f, v => [(f, v)]
  | (k, w) :: rest, f, v =>
      if k = f then (k, v) :: rest else (k, w) :: setField rest f v

/-- Dict lookup on the association-list record. -/
def lookupField : List (String × JValue) → String → Option JValue
  | [], _ => none
  | (k, v) :: rest, f => if k = f then some v else lookupField rest f

/-- The default job record created at lines 106-116 of
common/redis_client.py when update_job_field finds no stored job: status
pending, all counters 0, empty use_cases map, created_at set to the
current time. -/
def defaultJobRecord (now : String) : List (String × JValue) :=
  [(fStatus, JValue.jStr stPending), (fTotal, JValue.jInt 0),
   (fCompleted, JValue.jInt 0), (fFailed, JValue.jInt 0),
   (fPending, JValue.jInt 0), (fUseCases, JValue.jMap []),
   (fCreatedAt, JValue.jStr now)]

/-- Lines 91-129 of common/redis_client.py (update_job_field): read the
stored record, fall back to the default record when the job is absent,
set the requested field, refresh updated_at, store, and return True. The
stored argument is the result of get_job. -/
def updateJobField (stored : Option (List (String × JValue)))
    (field : String) (value : JValue) (now : String) :
    Bool × List (String × JValue) :=
  let jd := stored.getD (defaultJobRecord now)
  let jd1 := setField jd field value
  let jd2 := setField jd1 fUpdatedAt (JValue.jStr now)
  (true, jd2)

/-- Inputs determining the behavior of
DockerRunner.execute_single_use_case (worker/docker_runner.py lines
95-179): whether the setup code before the container run raises, whether
a Docker client is available, and the outcome of containers.run (the
decoded stdout on success, the exception text otherwise). -/
structure ExecEnv where
  setupError : Option String
  clientAvailable : Bool
  runResult : Except String String
deriving Repr

/-- The result dict of DockerRunner.execute_single_use_case, restricted
to the fields the callers read. -/
structure UCExecResult where
  status : String
  exitCode : Int
  detail : String
deriving DecidableEq, Repr

/-- Lines 95-179 of worker/docker_runner.py
(DockerRunner.execute_single_use_case). Every path returns a dict: the
outer except turns any setup exception into status failed with exit_code
1; with a client, a successful containers.run yields status completed
with exit_code 0 and a raising run yields status failed with exit_code 1
via the inner except; without a client the call to
_run_execution_fallback raises AttributeError, because no such method is
defined on DockerRunner, and the outer except again yields status failed
with exit_code 1. -/
def dockerExecuteSingleUseCase (env : ExecEnv) : UCExecResult :=
  match env.setupError with
  | some e => { status := stFailed, exitCode := 1, detail := e }
  | none =>
      if env.clientAvailable then
        match env.runResult with
        | Except.ok stdout => { status := stCompleted, exitCode := 0, detail := stdout }
        | Except.error e => { status := stFailed, exitCode := 1, detail := e }
      else
        { status := stFailed, exitCode := 1,
          detail := "DockerRunner object has no attribute" }

/-! Helper lemmas about countStatus. -/

theorem countStatus_replicate_ne {s p : String} (h : p ≠ s) :
    ∀ n : Nat, countStatus s (List.replicate n p) = 0 := by
  intro n
  induction n with
  | zero => rfl
  | succ m ih => simp [List.replicate_succ, countStatus, h, ih]

theorem countStatus_set_ne {s x : String} (hx : x ≠ s) :
    ∀ (l : List String) (i : Nat), l[i]? ≠ some s →
      countStatus s (l.set i x) = countStatus s l := by
  intro l
  induction l with
  | nil => intro i _; rfl
  | cons a t ih =>
    intro i hi
    cases i with
    | zero =>
      simp only [List.getElem?_cons_zero] at hi
      have ha : a ≠ s := fun h => hi (by rw [h])
      simp [List.set, countStatus, hx, ha]
    | succ n =>
      simp only [List.getElem?_cons_succ] at hi
      simp [List.set, countStatus, ih n hi]

theorem countStatus_set_eq {s : String} :
    ∀ (l : List String) (i : Nat), i < l.length → l[i]? ≠ some s →
      countStatus s (l.set i s) = countStatus s l + 1 := by
  intro l
  induction l with
  | nil => intro i hi _; simp at hi
  | cons a t ih =>
    intro i hi hne
    cases i with
    | zero =>
      simp only [List.getElem?_cons_zero] at hne
      have ha : a ≠ s := fun h => hne (by rw [h])
      simp only [List.set_cons_zero, countStatus, if_pos rfl, if_true, if_neg ha]
      omega
    | succ n =>
      simp only [List.getElem?_cons_succ] at hne
      simp only [List.length_cons, Nat.succ_lt_succ_iff] at hi
      simp only [List.set_cons_succ, countStatus, ih n hi hne]
      omega

theorem countStatus_two_le {a b : String} (hab : a ≠ b) :
    ∀ l : List String, countStatus a l + countStatus b l ≤ l.length := by
  intro l
  induction l with
  | nil => simp [countStatus]
  | cons x t ih =>
    simp only [countStatus, List.length_cons]
    split_ifs with h1 h2
    · exact absurd (h1.symm.trans h2) hab
    · omega
    · omega
    · omega

theorem countStatus_two_lt {a b : String} (hab : a ≠ b) :
    ∀ (l : List String) (i : Nat), i < l.length →
      l[i]? ≠ some a → l[i]? ≠ some b →
      countStatus a l + countStatus b l < l.length := by
  intro l
  induction l with
  | nil => intro i hi _ _; simp at hi
  | cons x t ih =>
    intro i hi ha hb
    cases i with
    | zero =>
      simp only [List.getElem?_cons_zero] at ha hb
      have hxa : x ≠ a := fun h => ha (by rw [h])
      have hxb : x ≠ b := fun h => hb (by rw [h])
      have h2 := countStatus_two_le hab t
      simp only [countStatus, List.length_cons, if_neg hxa, if_neg hxb]
      omega
    | succ n =>
      simp only [List.getElem?_cons_succ] at ha hb
      simp only [List.length_cons, Nat.succ_lt_succ_iff] at hi
      have h3 := ih n hi ha hb
      simp only [countStatus, List.length_cons]
      split_ifs with h1 h2
      · exact absurd (h1.symm.trans h2) hab
      · omega
      · omega
      · omega

/-! Counter consistency along reachable job records. -/

theorem reachable_countersOK {j : JobData} (h : ReachableJob j) : countersOK j := by
  induction h with
  | init => exact ⟨rfl, rfl, rfl, rfl⟩
  | populate n j hr he ih =>
    obtain ⟨hc, hf, hp, ht⟩ := ih
    rw [he] at hc hf
    simp only [countStatus, Nat.cast_zero] at hc hf
    refine ⟨?_, ?_, ?_, ?_⟩
    · simp [populateUseCases, countStatus_replicate_ne (show stPending ≠ stCompleted by decide), hc]
    · simp [populateUseCases, countStatus_replicate_ne (show stPending ≠ stFailed by decide), hf]
    · simp [populateUseCases, hc, hf]
    · simp [populateUseCases]
  | markRun i j hr hnc hnf ih =>
    obtain ⟨hc, hf, hp, ht⟩ := ih
    by_cases hi : i < j.useCases.length
    · have hC := countStatus_set_ne (show stRunning ≠ stCompleted by decide) j.useCases i hnc
      have hF := countStatus_set_ne (show stRunning ≠ stFailed by decide) j.useCases i hnf
      refine ⟨?_, ?_, ?_, ?_⟩ <;>
        simp [markRunning, hi, hC, hF, hc, hf, hp, ht, List.length_set]
    · simp only [markRunning, if_neg hi]
      exact ⟨hc, hf, hp, ht⟩
  | recRes i code j hr hnc hnf ih =>
    obtain ⟨hc, hf, hp, ht⟩ := ih
    by_cases hi : i < j.useCases.length
    · refine ⟨?_, ?_, ?_, ?_⟩ <;>
        simp [recordResult, hi, List.length_set, ht]
    · simp only [recordResult, if_neg hi]
      exact ⟨hc, hf, hp, ht⟩
  | recExc i j hr hnc hnf ih =>
    obtain ⟨hc, hf, hp, ht⟩ := ih
    by_cases hi : i < j.useCases.length
    · have hF := countStatus_set_eq j.useCases i hi hnf
      have hC := countStatus_set_ne (show stFailed ≠ stCompleted by decide) j.useCases i hnc
      have hlt := countStatus_two_lt (show stCompleted ≠ stFailed by decide) j.useCases i hi hnc hnf
      have hmax : max 0 (j.pending - 1) = j.pending - 1 := by
        rw [hp, hc, hf, ht]
        have : (countStatus stCompleted j.useCases : Int) +
            (countStatus stFailed j.useCases : Int) + 1 ≤ (j.useCases.length : Int) := by
          exact_mod_cast hlt
        omega
      refine ⟨?_, ?_, ?_, ?_⟩
      · simp [recordException, hi, hC, hc]
      · simp only [recordException, if_pos hi]
        rw [hF, hf]
        push_cast
        ring
      · simp only [recordException, if_pos hi]
        rw [hmax, hp]
        ring
      · simp [recordException, hi, List.length_set, ht]
    · simp only [recordException, if_neg hi]
      exact ⟨hc, hf, hp, ht⟩

/-- C2 (corrected): the persisted job record keeps no separate running
counter, so the only sum that holds is pending + completed + failed ==
total, with use cases in the running state still counted by the pending
counter. This holds after every persisted update along any legal
(no-redelivery) update sequence, and a pre-extraction record has
total_use_cases == 0 since its map is empty. -/
theorem c2_counters_sum (j : JobData) (h : ReachableJob j) :
    j.pending + j.completed + j.failed = j.total ∧
    (j.useCases = [] → j.total = 0) := by
  obtain ⟨hc, hf, hp, ht⟩ := reachable_countersOK h
  constructor
  · omega
  · intro he
    rw [ht, he]
    rfl

/-- C2 witness: the amended invariant evaluated on a concrete reachable
record (two use cases, one marked running then recorded failed). -/
theorem c2_counters_sum_witness :
    (recordResult 0 1 (markRunning 0 (populateUseCases 2 initJobData))).pending +
      (recordResult 0 1 (markRunning 0 (populateUseCases 2 initJobData))).completed +
      (recordResult 0 1 (markRunning 0 (populateUseCases 2 initJobData))).failed =
      (recordResult 0 1 (markRunning 0 (populateUseCases 2 initJobData))).total :=
  (c2_counters_sum _
    (ReachableJob.recRes 0 1 _
      (ReachableJob.markRun 0 _
        (ReachableJob.populate 2 _ ReachableJob.init rfl)
        (by decide) (by decide))
      (by decide) (by decide))).1

/-- C2 counterexample: after the persisted update that marks use case 0
running (worker/tasks.py lines 171-176) the claimed sum pending +
running + completed + failed overcounts: the pending counter is not
decremented when a use case starts running, so with running read as the
number of use cases in the running state the sum is total + 1. -/
theorem c2_counterexample :
    ¬ ((markRunning 0 (populateUseCases 1 initJobData)).pending +
       ((runningCount (markRunning 0 (populateUseCases 1 initJobData)) : Nat) : Int) +
       (markRunning 0 (populateUseCases 1 initJobData)).completed +
       (markRunning 0 (populateUseCases 1 initJobData)).failed =
       (markRunning 0 (populateUseCases 1 initJobData)).total) := by
  decide

/-- C1 (corrected): once every use case is terminal (the recomputed
pending counter reaches 0) the success path of execute_single_use_case
persists job status completed regardless of the failed count, and while
use cases remain pending it leaves the job status unchanged; the
exception path only ever writes completed or processing. In particular
per-use-case failures never produce a job status of failed, and the
status completed_with_errors is never produced. -/
theorem c1_final_status (j : JobData) (i : Nat) (code : Int)
    (h : i < j.useCases.length) :
    ((recordResult i code j).pending = 0 →
      (recordResult i code j).status = stCompleted) ∧
    ((recordResult i code j).pending ≠ 0 →
      (recordResult i code j).status = j.status) ∧
    ((recordException i j).status = stCompleted ∨
      (recordException i j).status = stProcessing) := by
  refine ⟨?_, ?_, ?_⟩
  · intro hp
    simp only [recordResult, if_pos h] at hp ⊢
    rw [if_pos hp]
  · intro hp
    simp only [recordResult, if_pos h] at hp ⊢
    rw [if_neg hp]
  · simp only [recordException, if_pos h]
    split_ifs <;> simp

/-- C1 witness: the final-status behavior evaluated on a concrete
single-use-case job. -/
theorem c1_final_status_witness :
    0 < (populateUseCases 1 initJobData).useCases.length ∧
    (((recordResult 0 0 (populateUseCases 1 initJobData)).pending = 0 →
        (recordResult 0 0 (populateUseCases 1 initJobData)).status = stCompleted) ∧
      ((recordResult 0 0 (populateUseCases 1 initJobData)).pending ≠ 0 →
        (recordResult 0 0 (populateUseCases 1 initJobData)).status =
          (populateUseCases 1 initJobData).status) ∧
      ((recordException 0 (populateUseCases 1 initJobData)).status = stCompleted ∨
        (recordException 0 (populateUseCases 1 initJobData)).status = stProcessing)) :=
  ⟨by decide, c1_final_status (populateUseCases 1 initJobData) 0 0 (by decide)⟩

/-- C1 counterexample: a single-use-case job whose only use case fails
(exit code 1) ends with failed count 1 and persisted status completed,
not completed_with_errors, refuting the claimed final-status rule. -/
theorem c1_counterexample :
    ((recordResult 0 1 (markRunning 0 (populateUseCases 1 initJobData))).pending = 0) ∧
    ((recordResult 0 1 (markRunning 0 (populateUseCases 1 initJobData))).failed = 1) ∧
    ((recordResult 0 1 (markRunning 0 (populateUseCases 1 initJobData))).status = stCompleted) ∧
    ((recordResult 0 1 (markRunning 0 (populateUseCases 1 initJobData))).status ≠
      stCompletedWithErrors) := by
  decide

/-! Helper lemmas about the container pool executor. -/

theorem dispatchOne_active_le (start : Nat → Bool) (s : PoolState) :
    (dispatchOne start s).active.length ≤ s.active.length + 1 := by
  unfold dispatchOne
  cases hq : s.queue with
  | nil => exact Nat.le_add_right _ _
  | cons i rest =>
    dsimp only
    split_ifs <;> simp [List.length_append]

theorem startBatch_active_le (start : Nat → Bool) :
    ∀ (k : Nat) (s : PoolState),
      (startBatch start k s).active.length ≤ s.active.length + k := by
  intro k
  induction k with
  | zero => intro s; simp [startBatch]
  | succ n ih =>
    intro s
    have h1 := ih (dispatchOne start s)
    have h2 := dispatchOne_active_le start s
    simp only [startBatch]
    omega

theorem reapOne_active_le (obs : Nat → ContainerObs) (logs : Nat → String)
    (s : PoolState) (i : Nat) :
    (reapOne obs logs s i).active.length ≤ s.active.length + 1 := by
  unfold reapOne
  cases obs i with
  | running => simp [List.length_append]
  | exited code => dsimp only; split_ifs <;> simp
  | errored msg => simp

theorem foldl_reapOne_active_le (obs : Nat → ContainerObs) (logs : Nat → String) :
    ∀ (l : List Nat) (acc : PoolState),
      (l.foldl (reapOne obs logs) acc).active.length ≤ acc.active.length + l.length := by
  intro l
  induction l with
  | nil => intro acc; simp
  | cons i t ih =>
    intro acc
    have h1 := ih (reapOne obs logs acc i)
    have h2 := reapOne_active_le obs logs acc i
    simp only [List.foldl_cons, List.length_cons]
    omega

theorem reap_active_le (obs : Nat → ContainerObs) (logs : Nat → String)
    (s : PoolState) :
    (reap obs logs s).active.length ≤ s.active.length := by
  unfold reap
  have h := foldl_reapOne_active_le obs logs s.active { s with active := [] }
  simpa using h

theorem backfillGo_active_le (start : Nat → Bool) (poolSize : Nat) :
    ∀ (fuel : Nat) (s : PoolState), s.active.length ≤ poolSize →
      (backfillGo start poolSize fuel s).active.length ≤ poolSize := by
  intro fuel
  induction fuel with
  | zero => intro s h; exact h
  | succ n ih =>
    intro s h
    simp only [backfillGo]
    split_ifs with hc
    · apply ih
      have h1 := dispatchOne_active_le start s
      omega
    · exact h

theorem backfill_active_le (start : Nat → Bool) (poolSize : Nat)
    (s : PoolState) (h : s.active.length ≤ poolSize) :
    (backfill start poolSize s).active.length ≤ poolSize :=
  backfillGo_active_le start poolSize s.queue.length s h

/-- C3: the pool bound. After the initial batch and after every polling
iteration of execute_use_cases_with_pool, the number of simultaneously
active containers is at most pool_size, for every use-case list, every
start-success oracle and every observation oracle, even while the queue
still holds pending items. -/
theorem c3_pool_bound (ucs : List Nat) (poolSize : Nat) (start : Nat → Bool)
    (obs : Nat → Nat → ContainerObs) (logs : Nat → String)
    (hp : 1 ≤ poolSize) (n : Nat) :
    (poolTrace start poolSize obs logs ucs n).active.length ≤ poolSize := by
  induction n with
  | zero =>
    have h := startBatch_active_le start (min poolSize ucs.length)
      (initialPoolState ucs)
    have hm : min poolSize ucs.length ≤ poolSize := Nat.min_le_left _ _
    simp only [poolTrace, initialBatch, initialPoolState] at h ⊢
    simp only [List.length_nil] at h
    omega
  | succ n ih =>
    simp only [poolTrace, pollStep]
    apply backfill_active_le
    have h := reap_active_le (obs n) logs (poolTrace start poolSize obs logs ucs n)
    omega

/-- C3 witness: the bound evaluated on a concrete three-item job with
pool size two after three polling iterations. -/
theorem c3_pool_bound_witness :
    1 ≤ 2 ∧
    (poolTrace (fun _ => true) 2 (fun _ _ => ContainerObs.exited 0)
      (fun _ => "") [0, 1, 2] 3).active.length ≤ 2 :=
  ⟨by decide,
   c3_pool_bound [0, 1, 2] 2 (fun _ => true) (fun _ _ => ContainerObs.exited 0)
     (fun _ => "") (by decide) 3⟩

/-- C4 (corrected): when _start_use_case_container fails for the use
case at the head of the queue, the dispatch code of
execute_use_cases_with_pool pops the use case and only logs an error: it
does not occupy a pool slot, but contrary to the claim it is not
recorded as failed either, the failed count is not incremented and no
result carrying the causing error is appended; the use case is silently
dropped. -/
theorem c4_failed_start_dropped (start : Nat → Bool) (s : PoolState)
    (i : Nat) (rest : List Nat) (hq : s.queue = i :: rest)
    (hs : start i = false) :
    (dispatchOne start s).active = s.active ∧
    (dispatchOne start s).results = s.results ∧
    (dispatchOne start s).failedCount = s.failedCount ∧
    (dispatchOne start s).completedCount = s.completedCount ∧
    (dispatchOne start s).queue = rest := by
  simp [dispatchOne, hq, hs]

/-- C4 witness: the dropped-dispatch behavior evaluated on a concrete
one-item queue whose container start fails. -/
theorem c4_failed_start_dropped_witness :
    (initialPoolState [5]).queue = 5 :: [] ∧
    (fun _ : Nat => false) 5 = false ∧
    ((dispatchOne (fun _ => false) (initialPoolState [5])).active =
        (initialPoolState [5]).active ∧
      (dispatchOne (fun _ => false) (initialPoolState [5])).results =
        (initialPoolState [5]).results ∧
      (dispatchOne (fun _ => false) (initialPoolState [5])).failedCount =
        (initialPoolState [5]).failedCount ∧
      (dispatchOne (fun _ => false) (initialPoolState [5])).completedCount =
        (initialPoolState [5]).completedCount ∧
      (dispatchOne (fun _ => false) (initialPoolState [5])).queue = []) :=
  ⟨rfl, rfl, c4_failed_start_dropped (fun _ => false) (initialPoolState [5]) 5 [] rfl rfl⟩

/-- C4 counterexample: a one-use-case job whose container fails to start
finishes the pool run with an empty result list and failed count 0: the
use case was not recorded as failed and did not contribute to the failed
count, refuting the claim. -/
theorem c4_counterexample :
    (poolTrace (fun _ => false) 1 (fun _ _ => ContainerObs.running)
        (fun _ => "") [0] 1).results = [] ∧
    (poolTrace (fun _ => false) 1 (fun _ _ => ContainerObs.running)
        (fun _ => "") [0] 1).failedCount = 0 ∧
    (poolTrace (fun _ => false) 1 (fun _ _ => ContainerObs.running)
        (fun _ => "") [0] 1).queue = [] ∧
    (poolTrace (fun _ => false) 1 (fun _ _ => ContainerObs.running)
        (fun _ => "") [0] 1).active = [] := by
  decide

/-- C7: the exit code alone is authoritative. A reaped container is
classified completed exactly when its exit code is 0 and failed for
every non-zero exit code; the classification does not depend on the
captured log, and no results-JSON content enters the classification (it
is not an input of _collect_container_result at all). The
wait_for_container_completion path of the parallel executor classifies
the same way, reading the exit code with default -1. -/
theorem c7_exit_code_authoritative :
    (∀ (i : Nat) (code : Int) (logs : String),
      ((collectContainerResult i code logs).status = stCompleted ↔ code = 0) ∧
      ((collectContainerResult i code logs).status = stFailed ↔ code ≠ 0)) ∧
    (∀ (i : Nat) (code : Int) (l1 l2 : String),
      (collectContainerResult i code l1).status =
        (collectContainerResult i code l2).status) ∧
    (∀ ec : Option Int,
      (waitForCompletionStatus ec = stCompleted ↔ ec.getD (-1) = 0) ∧
      (waitForCompletionStatus ec = stFailed ↔ ec.getD (-1) ≠ 0)) := by
  refine ⟨?_, ?_, ?_⟩
  · intro i code logs
    constructor
    · simp only [collectContainerResult]
      split_ifs with h <;> simp [h, stCompleted, stFailed]
    · simp only [collectContainerResult]
      split_ifs with h <;> simp [h, stCompleted, stFailed]
  · intro i code l1 l2
    simp [collectContainerResult]
  · intro ec
    constructor
    · simp only [waitForCompletionStatus]
      split_ifs with h <;> simp [h, stCompleted, stFailed]
    · simp only [waitForCompletionStatus]
      split_ifs with h <;> simp [h, stCompleted, stFailed]

/-- C5 (code bug): a job whose extraction produces an empty use-case
list is persisted with status queued, not completed: no
execute_single_use_case task is queued (so nothing ever moves the job
further), the returned dict also says queued, and queued is not even a
member of the AnalysisStatus enum of models/analysis.py. -/
theorem c5_zero_use_cases_stuck_queued :
    ((analyzeAfterExtraction (FileContent.valid []) none initJobData).job.status = stQueued) ∧
    ((analyzeAfterExtraction (FileContent.valid []) none initJobData).spawned = []) ∧
    ((analyzeAfterExtraction (FileContent.valid []) none initJobData).returnedStatus = stQueued) ∧
    ((analyzeAfterExtraction (FileContent.valid []) none initJobData).job.status ≠ stCompleted) ∧
    stQueued ∉ analysisStatusValues := by
  decide

/-- C8 (corrected): after a successful extraction exit, an absent
use_cases.json yields zero use cases and the job proceeds only when no
extraction_error.log is present; with the error log present the absent
file makes the job fail, and a present but invalid-JSON file always
makes the job fail. -/
theorem c8_absent_vs_invalid (j : JobData) (e : String) (log : Option String) :
    ((analyzeAfterExtraction FileContent.absent none j).job.status = stQueued) ∧
    ((analyzeAfterExtraction FileContent.absent none j).job.total = 0) ∧
    ((analyzeAfterExtraction FileContent.absent none j).job.useCases = []) ∧
    ((analyzeAfterExtraction FileContent.absent none j).spawned = []) ∧
    ((analyzeAfterExtraction FileContent.absent (some e) j).job.status = stFailed) ∧
    ((analyzeAfterExtraction FileContent.invalidJson log j).job.status = stFailed) := by
  cases log <;>
    simp [analyzeAfterExtraction, readUseCasesFile, populateUseCases]

/-- C8 counterexample: with use_cases.json absent but an
extraction_error.log present, the job does not proceed with zero use
cases: worker/tasks.py raises on the error log and the exception
handlers persist status failed. -/
theorem c8_counterexample :
    ((analyzeAfterExtraction FileContent.absent (some "agent error") initJobData).job.status =
      stFailed) ∧
    ((analyzeAfterExtraction FileContent.absent (some "agent error") initJobData).spawned = []) ∧
    ((analyzeAfterExtraction FileContent.absent (some "agent error") initJobData).job.status ≠
      stQueued) := by
  decide

/-! Helper lemmas about the Redis-backed use-case queue. -/

theorem rpopMany_of_length : ∀ (n : Nat) (q : List QItem), q.length = n →
    rpopMany n q = (q.reverse, []) := by
  intro n
  induction n with
  | zero =>
    intro q hq
    have he : q = [] := List.length_eq_zero.mp hq
    subst he
    rfl
  | succ m ih =>
    intro q hq
    have hne : q ≠ [] := by
      intro h
      subst h
      simp at hq
    have hlast : q.getLast? = some (q.getLast hne) := List.getLast?_eq_getLast q hne
    have hdl : q.dropLast.length = m := by
      rw [List.length_dropLast, hq]
      omega
    simp only [rpopMany, hlast]
    rw [ih q.dropLast hdl]
    have hq2 : q.dropLast ++ [q.getLast hne] = q := List.dropLast_append_getLast hne
    have hrev : q.reverse = q.getLast hne :: q.dropLast.reverse := by
      conv_lhs => rw [← hq2]
      simp
    rw [hrev]

theorem mkQueueItems_map_index (ucs : List String) :
    (mkQueueItems ucs).map QItem.index = List.range ucs.length := by
  rw [mkQueueItems, List.map_map]
  have hcomp : (QItem.index ∘ fun p : Nat × String =>
      ({ index := p.fst, payload := p.snd } : QItem)) = Prod.fst := rfl
  rw [hcomp, List.enum_map_fst]

theorem addUseCasesToQueue_reverse (ucs : List String) :
    (addUseCasesToQueue ucs).reverse = mkQueueItems ucs := by
  simp [addUseCasesToQueue, lpushMany]

theorem addUseCasesToQueue_length (ucs : List String) :
    (addUseCasesToQueue ucs).length = ucs.length := by
  simp [addUseCasesToQueue, lpushMany, mkQueueItems]

/-- C6: the queue is FIFO. After add_use_cases_to_queue pushes the items
of a nonempty use-case list, successive get_next_use_case calls return
exactly those items, in discovery (index) order, each exactly once (the
returned indices are the nodup list 0..n-1), the queue is then empty,
and a further call returns none. -/
theorem c6_fifo_queue (ucs : List String) (h : ucs ≠ []) :
    (rpopMany ucs.length (addUseCasesToQueue ucs)).fst = mkQueueItems ucs ∧
    ((rpopMany ucs.length (addUseCasesToQueue ucs)).fst.map QItem.index =
      List.range ucs.length) ∧
    ((rpopMany ucs.length (addUseCasesToQueue ucs)).fst.map QItem.index).Nodup ∧
    (rpopMany ucs.length (addUseCasesToQueue ucs)).snd = [] ∧
    (rpop (rpopMany ucs.length (addUseCasesToQueue ucs)).snd).fst = none := by
  have hspec := rpopMany_of_length ucs.length (addUseCasesToQueue ucs)
    (addUseCasesToQueue_length ucs)
  rw [hspec]
  refine ⟨addUseCasesToQueue_reverse ucs, ?_, ?_, rfl, rfl⟩
  · rw [addUseCasesToQueue_reverse ucs]
    exact mkQueueItems_map_index ucs
  · rw [addUseCasesToQueue_reverse ucs, mkQueueItems_map_index ucs]
    exact List.nodup_range _

/-- C6 witness: the FIFO property evaluated on a concrete three-item
use-case list. -/
theorem c6_fifo_queue_witness :
    (["alpha", "beta", "gamma"] : List String) ≠ [] ∧
    ((rpopMany (["alpha", "beta", "gamma"] : List String).length
        (addUseCasesToQueue ["alpha", "beta", "gamma"])).fst =
      mkQueueItems ["alpha", "beta", "gamma"] ∧
      ((rpopMany (["alpha", "beta", "gamma"] : List String).length
          (addUseCasesToQueue ["alpha", "beta", "gamma"])).fst.map QItem.index =
        List.range (["alpha", "beta", "gamma"] : List String).length) ∧
      ((rpopMany (["alpha", "beta", "gamma"] : List String).length
          (addUseCasesToQueue ["alpha", "beta", "gamma"])).fst.map QItem.index).Nodup ∧
      (rpopMany (["alpha", "beta", "gamma"] : List String).length
        (addUseCasesToQueue ["alpha", "beta", "gamma"])).snd = [] ∧
      (rpop (rpopMany (["alpha", "beta", "gamma"] : List String).length
        (addUseCasesToQueue ["alpha", "beta", "gamma"])).snd).fst = none) :=
  ⟨by decide, c6_fifo_queue ["alpha", "beta", "gamma"] (by decide)⟩

/-- C9: update_job_field on an absent job does not fail: it builds the
default record (status pending, all counters 0, empty use_cases map),
sets the requested field to the given value, refreshes updated_at to the
current time, and returns True; all default counters survive when the
updated field is none of them. -/
theorem c9_update_missing_job (field : String) (value : JValue) (now : String)
    (h1 : field ≠ fStatus) (h2 : field ≠ fTotal) (h3 : field ≠ fCompleted)
    (h4 : field ≠ fFailed) (h5 : field ≠ fPending) (h6 : field ≠ fUseCases)
    (h7 : field ≠ fCreatedAt) (h8 : field ≠ fUpdatedAt) :
    (updateJobField none field value now).fst = true ∧
    lookupField (updateJobField none field value now).snd fStatus =
      some (JValue.jStr stPending) ∧
    lookupField (updateJobField none field value now).snd fTotal =
      some (JValue.jInt 0) ∧
    lookupField (updateJobField none field value now).snd fCompleted =
      some (JValue.jInt 0) ∧
    lookupField (updateJobField none field value now).snd fFailed =
      some (JValue.jInt 0) ∧
    lookupField (updateJobField none field value now).snd fPending =
      some (JValue.jInt 0) ∧
    lookupField (updateJobField none field value now).snd fUseCases =
      some (JValue.jMap []) ∧
    lookupField (updateJobField none field value now).snd fCreatedAt =
      some (JValue.jStr now) ∧
    lookupField (updateJobField none field value now).snd field = some value ∧
    lookupField (updateJobField none field value now).snd fUpdatedAt =
      some (JValue.jStr now) := by
  simp only [fStatus, fTotal, fCompleted, fFailed, fPending, fUseCases,
    fCreatedAt, fUpdatedAt] at h1 h2 h3 h4 h5 h6 h7 h8
  simp [updateJobField, defaultJobRecord, setField, lookupField,
    fStatus, fTotal, fCompleted, fFailed, fPending, fUseCases, fCreatedAt,
    fUpdatedAt, stPending, h1, h2, h3, h4, h5, h6, h7, h8,
    Ne.symm h1, Ne.symm h2, Ne.symm h3, Ne.symm h4, Ne.symm h5, Ne.symm h6,
    Ne.symm h7, Ne.symm h8]

/-- C9 witness: update_job_field creating a missing job, evaluated at the
concrete field repo_path. -/
theorem c9_update_missing_job_witness :
    (("repo_path" : String) ≠ fStatus ∧ ("repo_path" : String) ≠ fTotal ∧
      ("repo_path" : String) ≠ fCompleted ∧ ("repo_path" : String) ≠ fFailed ∧
      ("repo_path" : String) ≠ fPending ∧ ("repo_path" : String) ≠ fUseCases ∧
      ("repo_path" : String) ≠ fCreatedAt ∧ ("repo_path" : String) ≠ fUpdatedAt) ∧
    ((updateJobField none "repo_path" (JValue.jStr "/data/repo") "t0").fst = true ∧
      lookupField (updateJobField none "repo_path" (JValue.jStr "/data/repo") "t0").snd
        fStatus = some (JValue.jStr stPending) ∧
      lookupField (updateJobField none "repo_path" (JValue.jStr "/data/repo") "t0").snd
        fTotal = some (JValue.jInt 0) ∧
      lookupField (updateJobField none "repo_path" (JValue.jStr "/data/repo") "t0").snd
        fCompleted = some (JValue.jInt 0) ∧
      lookupField (updateJobField none "repo_path" (JValue.jStr "/data/repo") "t0").snd
        fFailed = some (JValue.jInt 0) ∧
      lookupField (updateJobField none "repo_path" (JValue.jStr "/data/repo") "t0").snd
        fPending = some (JValue.jInt 0) ∧
      lookupField (updateJobField none "repo_path" (JValue.jStr "/data/repo") "t0").snd
        fUseCases = some (JValue.jMap []) ∧
      lookupField (updateJobField none "repo_path" (JValue.jStr "/data/repo") "t0").snd
        fCreatedAt = some (JValue.jStr "t0") ∧
      lookupField (updateJobField none "repo_path" (JValue.jStr "/data/repo") "t0").snd
        "repo_path" = some (JValue.jStr "/data/repo") ∧
      lookupField (updateJobField none "repo_path" (JValue.jStr "/data/repo") "t0").snd
        fUpdatedAt = some (JValue.jStr "t0")) :=
  ⟨by decide,
   c9_update_missing_job "repo_path" (JValue.jStr "/data/repo") "t0"
     (by decide) (by decide) (by decide) (by decide)
     (by decide) (by decide) (by decide) (by decide)⟩

/-- C10: DockerRunner.execute_single_use_case is total on its modelled
inputs (every path, including the missing-fallback AttributeError path
and any setup exception, is caught and turned into a returned dict): the
returned exit_code is always exactly 0 or 1, equal to 0 exactly on the
status completed path and 1 exactly on every failed path. -/
theorem c10_execute_single_result_shape (env : ExecEnv) :
    ((dockerExecuteSingleUseCase env).exitCode = 0 ∨
      (dockerExecuteSingleUseCase env).exitCode = 1) ∧
    ((dockerExecuteSingleUseCase env).exitCode = 0 ↔
      (dockerExecuteSingleUseCase env).status = stCompleted) ∧
    ((dockerExecuteSingleUseCase env).exitCode = 1 ↔
      (dockerExecuteSingleUseCase env).status = stFailed) := by
  obtain ⟨se, ca, rr⟩ := env
  cases se <;> cases ca <;> cases rr <;>
    simp [dockerExecuteSingleUseCase, stCompleted, stFailed]

end DocAnalyser
